import Mathlib

/-!
Verification development for the `solid-auth-oidc` client authentication
library (`src/index.js`).  The `ClientAuthOIDC` class is embedded shallowly:
the mutable instance becomes an explicit state record, the injected
`localStorage`-style store becomes an association list, promises and thrown
errors become `Except String`, and the external collaborators (the
Relying-Party capability, the WHATWG `URL` / `URLSearchParams` host
primitives, `JSON` serialization, the browser window) are modelled as
explicit parameters or small executable models, as described in the
specification sections 2 and 6.
-/

namespace SolidOIDC

/-- JavaScript values that the public operations can resolve with:
a string (webId), a boolean (`redirectTo` returns `false`),
`null`, or `undefined`. -/
inductive JsVal where
  | str (s : String)
  | boolV (b : Bool)
  | nullV
  | undef
deriving DecidableEq, Repr

/-- JS nullish-or-empty-string test: models the `!x` falsiness check the
source applies to string-valued variables (`null`, `undefined` and `""` are
falsy; every other string is truthy). `none` stands for both `null` and
`undefined`. -/
def falsyStr : Option String → Bool
  | none => true
  | some s => s = ""

/-- Models the JS `a || b` chain on string-or-nullish values. -/
def jsOr (a b : Option String) : Option String :=
  if falsyStr a then b else a

/-- Coerce an optional string to the JS value a JS expression holding such a
variable evaluates to (`undefined` for the missing case). -/
def optToJs : Option String → JsVal
  | none => .undef
  | some s => .str s

/-- Models JS string coercion of a string-or-nullish value (as performed by
`URLSearchParams.set` on its value argument, and by the stores on the value
handed to `setItem`). -/
def jsString : Option String → String
  | none => "null"
  | some s => s

/-- Modelled from the spec (section 6) durable store contract: a synchronous
string-keyed, string-valued store with `get`, `set`, `remove` — the injected
`localStorage`-like collaborator.  We represent it as an association list in
which the most recent binding for a key shadows older ones; a `none` value
records that the key is absent (never set, or removed). -/
def Store := List (String × Option String)

/-- `store.getItem(key)`: value of the most recent binding, `none` when the
key is absent. -/
def Store.getItem : Store → String → Option String
  | [], _ => none
  | (k', v) :: rest, k => if k' = k then v else Store.getItem rest k

/-- `store.setItem(key, value)`: the underlying stores (DOM `localStorage`
and the `localstorage-memory` store the tests inject) coerce the value to a
string, so a nullish value handed by the caller is stored as the truthy
string `"null"`, not as an absent entry. -/
def Store.setItem (st : Store) (k : String) (v : Option String) : Store :=
  (k, some (jsString v)) :: st

/-- `store.removeItem(key)`. -/
def Store.removeItem (st : Store) (k : String) : Store :=
  (k, none) :: st

/-! ## Host URL primitives

The source leans on the global WHATWG `URL` and `URLSearchParams` objects
(the test harness installs them as `global.URL` / `global.URLSearchParams`).
These are host primitives, not repository code; the models below follow
their documented behavior as used by the source: parsing splits a URI into
the part before the query, the query string and the fragment, and parsing
throws (`TypeError: Invalid URL`) when the input has no scheme; search-param
lookup reads the first `key=value` pair; serialization reassembles the three
parts.  Percent-decoding of parameter values is elided (all values exercised
here are plain tokens); `formEncode` below models the form-urlencoding that
`URLSearchParams` applies when serializing. -/

/-- Model of a parsed WHATWG `URL` object: `base` is everything before the
query string and fragment, `query` the query string without its leading `?`,
`fragment` the fragment without its leading `#`. -/
structure URLModel where
  base : String
  query : String
  fragment : String
deriving DecidableEq, Repr

/-- The `.hash` property of a parsed URL: empty when the fragment is empty
(also for a bare trailing `#`), otherwise `#` followed by the fragment. -/
def URLModel.hash (u : URLModel) : String :=
  if u.fragment = "" then "" else "#" ++ u.fragment

/-- Character-list split at the first occurrence of a separator: the part
before it, and the part after it when the separator occurs at all. -/
def breakAt (sep : Char) : List Char → List Char × Option (List Char)
  | [] => ([], none)
  | c :: rest =>
    if c = sep then ([], some rest)
    else
      let (b, a) := breakAt sep rest
      (c :: b, a)

/-- Character-list split at every occurrence of a separator. -/
def splitChar (sep : Char) : List Char → List (List Char)
  | [] => [[]]
  | c :: rest =>
    let r := splitChar sep rest
    if c = sep then [] :: r
    else
      match r with
      | [] => [[c]]
      | h :: t => (c :: h) :: t

/-- Locate the first `://` in a character list: the part before it (the
candidate scheme) and the part after it. -/
def schemeSplit : List Char → Option (List Char × List Char)
  | [] => none
  | ':' :: '/' :: '/' :: rest => some ([], rest)
  | c :: rest =>
    match schemeSplit rest with
    | none => none
    | some (s, r) => some (c :: s, r)

/-- Modelled from the host `URL` primitive: a URI parses successfully when a
nonempty all-letter scheme is followed by `://`; otherwise the constructor
throws.  The fragment is everything after the first `#`; the query is
everything between the first `?` before the fragment and the fragment. -/
def parseURL (s : String) : Option URLModel :=
  match schemeSplit s.data with
  | none => none
  | some (scheme, _) =>
    if scheme ≠ [] ∧ scheme.all Char.isAlpha then
      let (beforeHash, frag) := breakAt '#' s.data
      let (base, query) := breakAt '?' beforeHash
      some ⟨String.mk base, String.mk (query.getD []), String.mk (frag.getD [])⟩
    else none

/-- Serialization (`url.toString()`) of the URL model. -/
def serializeURL (u : URLModel) : String :=
  u.base ++ (if u.query = "" then "" else "?" ++ u.query)
         ++ (if u.fragment = "" then "" else "#" ++ u.fragment)

/-- The non-empty pieces of a query string (split at `&`), each broken at
its first `=` into key characters and value characters (`URLSearchParams`
keeps any further `=` inside the value; a piece with no `=` denotes the
empty value). -/
def paramPieces (q : String) : List (List Char × List Char) :=
  ((splitChar '&' q.data).filter (· ≠ [])).map
    (fun kv =>
      let (k, v) := breakAt '=' kv
      (k, v.getD []))

/-- Modelled from the host `URLSearchParams` primitive:
`new URLSearchParams(q).get(key)` — value of the first pair whose key
matches, `none` when the key does not occur. -/
def paramsGet (q : String) (key : String) : Option String :=
  match (paramPieces q).find? (fun kv => kv.1 = key.data) with
  | none => none
  | some kv => some (String.mk kv.2)

/-- Join key/value character pieces back into a query string. -/
def joinParams : List (List Char × List Char) → List Char
  | [] => []
  | [kv] => kv.1 ++ '=' :: kv.2
  | kv :: rest => kv.1 ++ '=' :: kv.2 ++ '&' :: joinParams rest

/-- Drop every piece with the given key from a piece list. -/
def dropKey (key : List Char) (l : List (List Char × List Char)) :
    List (List Char × List Char) :=
  l.filter (fun kv => kv.1 ≠ key)

/-- Replace the value of the first piece with the given key, dropping later
duplicates; the pieces are otherwise kept in order. -/
def setFirstKey (key : List Char) (val : List Char) :
    List (List Char × List Char) → List (List Char × List Char)
  | [] => [(key, val)]
  | kv :: rest =>
    if kv.1 = key then (key, val) :: dropKey key rest
    else kv :: setFirstKey key val rest

/-- Modelled from the host `URLSearchParams` primitive:
`params.set(key, value)` followed by serialization — the first pair with the
key is replaced (later duplicates dropped); a missing key is appended.  The
value is expected pre-encoded (see `formEncode`). -/
def paramsSet (q : String) (key : String) (val : String) : String :=
  String.mk (joinParams (setFirstKey key.data val.data (paramPieces q)))

/-- Upper-case hexadecimal digit for a value below 16. -/
def hexDigit : Nat → Char
  | 0 => '0' | 1 => '1' | 2 => '2' | 3 => '3' | 4 => '4'
  | 5 => '5' | 6 => '6' | 7 => '7' | 8 => '8' | 9 => '9'
  | 10 => 'A' | 11 => 'B' | 12 => 'C' | 13 => 'D' | 14 => 'E'
  | _ => 'F'

/-- UTF-8 byte sequence of a unicode code point. -/
def utf8Bytes (n : Nat) : List Nat :=
  if n < 0x80 then [n]
  else if n < 0x800 then [0xC0 + n / 64, 0x80 + n % 64]
  else if n < 0x10000 then [0xE0 + n / 4096, 0x80 + n / 64 % 64, 0x80 + n % 64]
  else [0xF0 + n / 262144, 0x80 + n / 4096 % 64, 0x80 + n / 64 % 64, 0x80 + n % 64]

/-- Percent-encoding of one byte. -/
def percentChars (b : Nat) : List Char :=
  ['%', hexDigit (b / 16 % 16), hexDigit (b % 16)]

/-- Modelled from the host `URLSearchParams` primitive: the
form-urlencoding it applies when serializing a parameter value — unreserved
characters kept, space becomes `+`, everything else percent-encoded
byte-wise (UTF-8). -/
def formEncodeChar (c : Char) : List Char :=
  if c.isAlphanum ∨ c = '*' ∨ c = '-' ∨ c = '.' ∨ c = '_' then [c]
  else if c = ' ' then ['+']
  else ((utf8Bytes c.toNat).map percentChars).flatten

/-- Form-urlencode a whole string, character by character. -/
def formEncode (s : String) : String :=
  String.mk ((s.data.map formEncodeChar).flatten)

/-- `str.substr(1)`: the string without its first character. -/
def strTail (s : String) : String :=
  match s.data with
  | [] => ""
  | _ :: t => String.mk t

/-! ## The external Relying-Party capability and the data it produces

`src/index.js` delegates all OIDC protocol mechanics to the injected
`oidc-rp` `RelyingParty` objects.  A client is modelled by the fields the
source actually reads: `client.provider.url`,
`client.provider.configuration.end_session_endpoint`, `client.serialize()`,
and the two asynchronous operations `createRequest` and `validateResponse`
(both receive the durable store; `createRequest` may stash its own material
in it, so it returns an updated store together with the authorization
URI). -/

/-- `client.provider.configuration` as read by `providerEndSessionEndpoint`. -/
structure OIDCConfiguration where
  end_session_endpoint : Option String

/-- `client.provider`: the provider url plus its discovered configuration
(`none` models a nullish `configuration` field). -/
structure ProviderModel where
  url : String
  configuration : Option OIDCConfiguration

/-- `response.params` of a validated auth response. -/
structure AuthResponseParams where
  id_token : Option String
  access_token : Option String

/-- `response.decoded.payload` — decoded ID-token claims; the source reads
only the subject claim `sub`. -/
structure IDTokenPayload where
  sub : Option String

/-- `response.decoded` — the decoded ID token. -/
structure DecodedIDToken where
  payload : IDTokenPayload

/-- The payload handed back by `client.validateResponse`. -/
structure AuthResponse where
  params : AuthResponseParams
  decoded : DecodedIDToken

/-- Model of an `oidc-rp` `RelyingParty` client instance, restricted to the
members the source reads.  `serialized` is the string `client.serialize()`
produces. -/
structure Client where
  provider : Option ProviderModel
  serialized : String
  createRequest : Store → Except String (String × Store)
  validateResponse : Option String → Store → Except String AuthResponse

/-- The registration payload that `registerPublicClient` constructs and
hands to `RelyingParty.register`. -/
structure Registration where
  issuer : String
  grant_types : List String
  redirect_uris : List (Option String)
  response_types : List String
  scope : String
deriving Repr

/-- Options accepted by `registerClient` / `registerPublicClient`
(defaulted to `{}` at the single internal call site). -/
structure RegisterOptions where
  redirectUri : Option String := none
  scope : Option String := none

/-- The ambient host capabilities the source obtains from its module
imports and globals rather than from the instance: `RelyingParty.from`
composed with `JSON.parse` of a stored client configuration, the
`RelyingParty.register` dynamic-registration call, and `JSON.stringify` /
`JSON.parse` for the session-credentials record.  All are external
collaborators (spec section 6). -/
structure Host where
  fromConfig : String → Except String Client
  register : String → Registration → Except String Client
  encodeCreds : Option String → Option String → Option String → String
  decodeCreds : String → Except String (Option String × Option String × Option String)

/-! ## The `ClientAuthOIDC` instance state -/

/-- Session credentials `{ webId, idToken, accessToken }` (data-model
`Session`). -/
structure Credentials where
  webId : Option String
  idToken : Option String
  accessToken : Option String
deriving DecidableEq, Repr

/-- Observable host effects: full-page redirects, history replacement of
the visible URL, `RelyingParty.register` invocations, listener
registration, popup handling and debug logging. -/
inductive Event where
  | redirect (uri : String)
  | replaceUrl (uri : Option String)
  | registerCall (providerUri : String)
  | listen
  | popupOpen
  | popupFocus
  | debugLog
deriving DecidableEq, Repr

/-- The injected browser window, restricted to what the source reads:
`location.href` (absent models a missing `location` or `href`) and whether
a `history` object is available. -/
structure WindowModel where
  locationHref : Option String
  hasHistory : Bool
deriving DecidableEq, Repr

/-- The mutable state of one `ClientAuthOIDC` instance (constructor fields),
together with the injected store and window and the trace of host effects. -/
structure ClientAuthOIDC where
  window : Option WindowModel
  store : Store
  currentClient : Option Client
  providerUri : Option String
  redirectUri : Option String
  webId : Option String
  idToken : Option String
  accessToken : Option String
  selectProviderWindowOpen : Bool
  events : List Event

/-- Promise / thrown-error result: `error` carries the error message. -/
abbrev Res (α : Type) := Except String α

-- Local storage keys and key prefixes (source lines 38-44).
def CURRENT_PROVIDER : String := "solid.current-provider"
def CURRENT_CREDENTIALS : String := "solid.current-user"
def RP_BY_PROVIDER : String := "oidc.rp.by-provider."
def PROVIDER_BY_STATE : String := "oidc.provider.by-state."

-- URI parameter types (source lines 31-33).
def HASH : String := "hash"
def QUERY : String := "query"

/-! ## Methods of `ClientAuthOIDC`

Each method takes the instance state explicitly and returns its result
together with the successor state.  A rejected promise or a thrown error is
an `Except.error` carrying the message. -/

/-- `currentLocation()`: the current window URI, `null` when no window or
no location is available. -/
def currentLocation (c : ClientAuthOIDC) : Option String :=
  match c.window with
  | none => none
  | some w => w.locationHref

/-- `saveCurrentProvider(providerUri)`: caches the provider on the instance
and persists it under the current-provider key.  The source passes through
whatever value it holds — including a nullish one. -/
def saveCurrentProvider (c : ClientAuthOIDC) (providerUri : Option String) : ClientAuthOIDC :=
  { c with providerUri := providerUri,
           store := c.store.setItem CURRENT_PROVIDER providerUri }

/-- `extractState(uri, uriType)`: the `state` param of the query string or
of the fragment-read-as-query-string.  Nullish or empty `uri` yields `null`;
an unparseable `uri` makes the `new URL(uri)` constructor throw — there is
no `try`/`catch` in the source, so the error propagates. -/
def extractState (uri : Option String) (uriType : String) : Res (Option String) :=
  if falsyStr uri then .ok none
  else
    match parseURL (uri.getD "") with
    | none => .error "Invalid URL"
    | some uriObj =>
      let stateHash : Option String :=
        if uriType = HASH then
          let hash := if uriObj.hash = "" then "#" else uriObj.hash
          paramsGet (strTail hash) "state"
        else none
      let state : Option String :=
        if uriType = QUERY then paramsGet uriObj.query "state" else stateHash
      .ok state

/-- `loadProviderByState(state)`: store lookup under the by-state key. -/
def loadProviderByState (c : ClientAuthOIDC) (state : String) : Option String :=
  c.store.getItem (PROVIDER_BY_STATE ++ state)

/-- `saveProviderByState(state, providerUri)`: persists the correlation
record, throwing when `state` is nullish or empty. -/
def saveProviderByState (c : ClientAuthOIDC) (state : Option String)
    (providerUri : Option String) : Res Unit × ClientAuthOIDC :=
  match state with
  | none => (.error "Cannot save providerUri - state not provided", c)
  | some s =>
    if s = "" then (.error "Cannot save providerUri - state not provided", c)
    else (.ok (), { c with store := c.store.setItem (PROVIDER_BY_STATE ++ s) providerUri })

/-- `providerFromCurrentUri()`: reads the `state` hash param of the current
URI; when present, loads the correlated provider from the store, promotes
the loaded value (possibly nullish) to current provider, and returns it. -/
def providerFromCurrentUri (c : ClientAuthOIDC) : Res (Option String) × ClientAuthOIDC :=
  let currentUri := currentLocation c
  match extractState currentUri HASH with
  | .error e => (.error e, c)
  | .ok stateParam =>
    match stateParam with
    | none => (.ok none, c)
    | some s =>
      if s = "" then (.ok none, c)
      else
        let providerUri := loadProviderByState c s
        let c := saveCurrentProvider c providerUri
        (.ok providerUri, c)

/-- `currentProvider()`: the cached provider, else the stored one, else the
one recovered from the current URI state param. -/
def currentProvider (c : ClientAuthOIDC) : Res (Option String) × ClientAuthOIDC :=
  if falsyStr c.providerUri then
    let stored := c.store.getItem CURRENT_PROVIDER
    if falsyStr stored then providerFromCurrentUri c
    else (.ok stored, c)
  else (.ok c.providerUri, c)

/-- `selectProviderUI()`: logs, registers the message listener and opens (or
refocuses) the provider-selection popup.  The popup window and its document
are host UI primitives; their manipulation is recorded as events.  A missing
window makes the listener registration throw. -/
def selectProviderUI (c : ClientAuthOIDC) : Res Unit × ClientAuthOIDC :=
  let c := { c with events := .debugLog :: c.events }
  match c.window with
  | none => (.error "TypeError: this.window is nullish", c)
  | some _ =>
    let c := { c with events := .listen :: c.events }
    if c.selectProviderWindowOpen then
      (.ok (), { c with events := .popupFocus :: c.events })
    else
      (.ok (), { c with selectProviderWindowOpen := true,
                        events := .popupOpen :: c.events })

/-- `selectProvider(providerUri)`: explicit argument, else
`currentProvider()`; when both are falsy, kicks off the popup workflow and
returns `undefined`. -/
def selectProvider (providerUri : Option String) (c : ClientAuthOIDC) :
    Res (Option String) × ClientAuthOIDC :=
  if falsyStr providerUri then
    match currentProvider c with
    | (.error e, c) => (.error e, c)
    | (.ok cp, c) =>
      if falsyStr cp then
        match selectProviderUI c with
        | (.error e, c) => (.error e, c)
        | (.ok _, c) => (.ok none, c)
      else (.ok cp, c)
  else (.ok providerUri, c)

/-- `setCurrentCredentials(options)`. -/
def setCurrentCredentials (c : ClientAuthOIDC) (creds : Credentials) : ClientAuthOIDC :=
  { c with webId := creds.webId, accessToken := creds.accessToken,
           idToken := creds.idToken }

/-- `saveCurrentCredentials(options)`: caches the credentials and persists
their JSON serialization under the session key. -/
def saveCurrentCredentials (host : Host) (c : ClientAuthOIDC) (creds : Credentials) :
    ClientAuthOIDC :=
  let c := setCurrentCredentials c creds
  { c with store := c.store.setItem CURRENT_CREDENTIALS
             (some (host.encodeCreds creds.webId creds.idToken creds.accessToken)) }

/-- `clearCurrentCredentials()`. -/
def clearCurrentCredentials (c : ClientAuthOIDC) : ClientAuthOIDC :=
  { c with store := c.store.removeItem CURRENT_CREDENTIALS,
           webId := none, accessToken := none, idToken := none }

/-- Static `loadCurrentCredentials(store)`: the parsed stored session
record, or an empty record when the key is falsy. -/
def loadCurrentCredentialsFromStore (host : Host) (store : Store) : Res Credentials :=
  match store.getItem CURRENT_CREDENTIALS with
  | none => .ok ⟨none, none, none⟩
  | some s =>
    if s = "" then .ok ⟨none, none, none⟩
    else
      match host.decodeCreds s with
      | .error e => .error e
      | .ok (w, i, a) => .ok ⟨w, i, a⟩

/-- Instance `loadCurrentCredentials()`: hydrates the instance fields from
the stored session record. -/
def loadCurrentCredentials (host : Host) (c : ClientAuthOIDC) :
    Res Unit × ClientAuthOIDC :=
  match loadCurrentCredentialsFromStore host c.store with
  | .error e => (.error e, c)
  | .ok creds => (.ok (), setCurrentCredentials c creds)

/-- `providerEndSessionEndpoint()`: the advertised end-session endpoint of
the current client, `null` when any link of the chain is missing or the
endpoint itself is falsy. -/
def providerEndSessionEndpoint (c : ClientAuthOIDC) : Option String :=
  match c.currentClient with
  | none => none
  | some rp =>
    match rp.provider with
    | none => none
    | some provider =>
      match provider.configuration with
      | none => none
      | some config =>
        match config.end_session_endpoint with
        | none => none
        | some e => if e = "" then none else some e

/-- `redirectTo(uri)`: sets `window.location.href` (a full-page navigation,
recorded as an event) and returns `false`. -/
def redirectTo (c : ClientAuthOIDC) (uri : String) : Res JsVal × ClientAuthOIDC :=
  match c.window with
  | none => (.error "TypeError: this.window is nullish", c)
  | some w =>
    (.ok (.boolV false),
      { c with window := some { w with locationHref := some uri },
               events := .redirect uri :: c.events })

/-- `replaceCurrentUrl(newUrl)`: non-navigating history replacement of the
visible URL; a no-op when the window exposes no history capability. -/
def replaceCurrentUrl (c : ClientAuthOIDC) (newUrl : Option String) :
    Res Unit × ClientAuthOIDC :=
  match c.window with
  | none => (.error "TypeError: this.window is nullish", c)
  | some w =>
    if w.hasHistory then
      (.ok (), { c with window := some { w with locationHref := newUrl },
                        events := .replaceUrl newUrl :: c.events })
    else (.ok (), c)

/-- `currentLocationNoHash()`: the current URI with the fragment cleared,
`null` when no current URI is available; `new URL` throws on an unparseable
current URI. -/
def currentLocationNoHash (c : ClientAuthOIDC) : Res (Option String) :=
  match currentLocation c with
  | none => .ok none
  | some loc =>
    if loc = "" then .ok none
    else
      match parseURL loc with
      | none => .error "Invalid URL"
      | some u => .ok (some (serializeURL { u with fragment := "" }))

/-- `clearAuthResponseFromUrl()`. -/
def clearAuthResponseFromUrl (c : ClientAuthOIDC) : Res Unit × ClientAuthOIDC :=
  match currentLocationNoHash c with
  | .error e => (.error e, c)
  | .ok clearedUrl => replaceCurrentUrl c clearedUrl

/-- The `catch` handler of `initUserFromResponse`: strips the fragment, then
swallows exactly the unresolvable-signing-key error (resolving `null`) and
rethrows anything else. -/
def initUserFromResponseCatch (e : String) (c : ClientAuthOIDC) :
    Res JsVal × ClientAuthOIDC :=
  match clearAuthResponseFromUrl c with
  | (.error e2, c) => (.error e2, c)
  | (.ok _, c) =>
    if e = "Cannot resolve signing key for ID Token." then
      (.ok .nullV, { c with events := .debugLog :: c.events })
    else (.error e, c)

/-- `initUserFromResponse(client)`: validates the auth response in the
current URI, strips the fragment, extracts the subject claim as the webId
(`extractAndValidateWebId`), persists the credentials and resolves with the
webId; failures go through the `catch` handler above. -/
def initUserFromResponse (host : Host) (client : Client) (c : ClientAuthOIDC) :
    Res JsVal × ClientAuthOIDC :=
  match client.validateResponse (currentLocation c) c.store with
  | .error e => initUserFromResponseCatch e c
  | .ok response =>
    let credsIdToken := response.params.id_token
    let credsAccessToken := response.params.access_token
    match clearAuthResponseFromUrl c with
    | (.error e, c) => initUserFromResponseCatch e c
    | (.ok _, c) =>
      let webId := response.decoded.payload.sub
      let c := { c with webId := webId }
      let c := saveCurrentCredentials host c ⟨webId, credsIdToken, credsAccessToken⟩
      (.ok (optToJs webId), c)

/-- `sendAuthRequest(client)`: asks the client for an authorization URI
(handing it the store), extracts the `state` query param, persists the
correlation record (throwing when the param is missing) and only then
redirects. -/
def sendAuthRequest (client : Client) (c : ClientAuthOIDC) :
    Res JsVal × ClientAuthOIDC :=
  match client.provider with
  | none => (.error "TypeError: client.provider is nullish", c)
  | some provider =>
    let providerUri := provider.url
    match client.createRequest c.store with
    | .error e => (.error e, c)
    | .ok (authUri, store) =>
      let c := { c with store := store }
      match extractState (some authUri) QUERY with
      | .error e => (.error e, c)
      | .ok state =>
        match saveProviderByState c state (some providerUri) with
        | (.error e, c) => (.error e, c)
        | (.ok _, c) => redirectTo c authUri

/-- `currentUriHasAuthResponse()`: whether the current URI fragment carries
a truthy `state` param. -/
def currentUriHasAuthResponse (c : ClientAuthOIDC) : Res Bool :=
  match extractState (currentLocation c) HASH with
  | .error e => .error e
  | .ok stateParam => .ok (!falsyStr stateParam)

/-- `validateOrSendAuthRequest(client)`: rejects when no client was
resolved; otherwise validates the callback response when the current URI is
the redirect back, else sends a fresh auth request. -/
def validateOrSendAuthRequest (host : Host) (client : Option Client)
    (c : ClientAuthOIDC) : Res JsVal × ClientAuthOIDC :=
  match client with
  | none => (.error "Could not load or register a RelyingParty client", c)
  | some client =>
    match currentUriHasAuthResponse c with
    | .error e => (.error e, c)
    | .ok true => initUserFromResponse host client c
    | .ok false => sendAuthRequest client c

/-- Tail of `loadClient`: the store lookup under the by-provider key and
reconstruction via `JSON.parse` + `RelyingParty.from`. -/
def loadClientFromStore (host : Host) (c : ClientAuthOIDC) (p : String) :
    Res (Option Client) × ClientAuthOIDC :=
  match c.store.getItem (RP_BY_PROVIDER ++ p) with
  | none => (.ok none, c)
  | some cfg =>
    if cfg = "" then (.ok none, c)
    else
      match host.fromConfig cfg with
      | .error e => (.error e, c)
      | .ok client => (.ok (some client), c)

/-- `loadClient(providerUri)`: rejects on a missing provider URI; returns
the in-memory client when it is for the same provider; otherwise
reconstitutes a client from the stored registration, or resolves `null`. -/
def loadClient (host : Host) (c : ClientAuthOIDC) (providerUri : Option String) :
    Res (Option Client) × ClientAuthOIDC :=
  match providerUri with
  | none => (.error "Cannot load or register client, providerUri missing", c)
  | some p =>
    if p = "" then (.error "Cannot load or register client, providerUri missing", c)
    else
      match c.currentClient with
      | none => loadClientFromStore host c p
      | some cached =>
        match cached.provider with
        | none => (.error "TypeError: client.provider is nullish", c)
        | some prov =>
          if prov.url = p then (.ok (some cached), c)
          else loadClientFromStore host c p

/-- `saveClient(client, providerUri)`: caches the client and persists its
serialization under the by-provider key. -/
def saveClient (c : ClientAuthOIDC) (client : Client) (providerUri : String) :
    ClientAuthOIDC :=
  { c with currentClient := some client,
           store := c.store.setItem (RP_BY_PROVIDER ++ providerUri)
             (some client.serialized) }

/-- `registerRP(providerUri, registration, rpOptions)`: the external
`RelyingParty.register` call, recorded as a `registerCall` event. -/
def registerRP (host : Host) (c : ClientAuthOIDC) (p : String)
    (registration : Registration) : Res Client × ClientAuthOIDC :=
  let c := { c with events := .registerCall p :: c.events }
  match host.register p registration with
  | .error e => (.error e, c)
  | .ok client => (.ok client, c)

/-- `registerPublicClient(providerUri, options)`: builds the implicit-flow
registration payload (redirect URI defaulting to the instance redirect URI
and then the current location, scope defaulting to `openid profile`) and
performs the registration; rejects on a missing provider URI. -/
def registerPublicClient (host : Host) (c : ClientAuthOIDC)
    (providerUri : Option String) (options : RegisterOptions) :
    Res Client × ClientAuthOIDC :=
  let c := { c with events := .debugLog :: c.events }
  match providerUri with
  | none => (.error "Cannot registerClient auth client, missing providerUri", c)
  | some p =>
    if p = "" then (.error "Cannot registerClient auth client, missing providerUri", c)
    else
      let redirectUri := jsOr options.redirectUri (jsOr c.redirectUri (currentLocation c))
      let registration : Registration :=
        { issuer := p
          grant_types := ["implicit"]
          redirect_uris := [redirectUri]
          response_types := ["id_token token"]
          scope := if falsyStr options.scope then "openid profile" else options.scope.getD "" }
      registerRP host c p registration

/-- `registerClient(providerUri, options)`: registration followed by
`saveClient` (the provider URI is necessarily truthy when `saveClient`
runs, since `registerPublicClient` rejected otherwise). -/
def registerClient (host : Host) (c : ClientAuthOIDC)
    (providerUri : Option String) (options : RegisterOptions) :
    Res Client × ClientAuthOIDC :=
  match registerPublicClient host c providerUri options with
  | (.error e, c) => (.error e, c)
  | (.ok client, c) => (.ok client, saveClient c client (providerUri.getD ""))

/-- `loadOrRegisterClient(providerUri)`: clears the in-memory client, then
loads a persisted client for the provider or registers a new one. -/
def loadOrRegisterClient (host : Host) (c : ClientAuthOIDC)
    (providerUri : Option String) : Res Client × ClientAuthOIDC :=
  let c := { c with currentClient := none }
  match loadClient host c providerUri with
  | (.error e, c) => (.error e, c)
  | (.ok (some loadedClient), c) =>
    (.ok loadedClient, { c with currentClient := some loadedClient })
  | (.ok none, c) => registerClient host c providerUri {}

/-- `login(providerUri)`: short-circuits on a cached webId; otherwise
clears stale credentials, resolves a provider, loads or registers a client
and validates the callback or sends the auth request.  Resolves `undefined`
when no provider could be resolved. -/
def login (host : Host) (providerUri : Option String) (c : ClientAuthOIDC) :
    Res JsVal × ClientAuthOIDC :=
  if falsyStr c.webId then
    let c := clearCurrentCredentials c
    match selectProvider providerUri c with
    | (.error e, c) => (.error e, c)
    | (.ok selectedProviderUri, c) =>
      if falsyStr selectedProviderUri then (.ok .undef, c)
      else
        match loadOrRegisterClient host c selectedProviderUri with
        | (.error e, c) => (.error e, c)
        | (.ok client, c) => validateOrSendAuthRequest host (some client) c
  else (.ok (optToJs c.webId), c)

/-- `currentUser()`: the cached webId, else the stored one, else a login
via a resolvable provider, else `null`. -/
def currentUser (host : Host) (c : ClientAuthOIDC) : Res JsVal × ClientAuthOIDC :=
  if falsyStr c.webId then
    match loadCurrentCredentials host c with
    | (.error e, c) => (.error e, c)
    | (.ok _, c) =>
      if falsyStr c.webId then
        match currentProvider c with
        | (.error e, c) => (.error e, c)
        | (.ok providerUri, c) =>
          if falsyStr providerUri then (.ok .nullV, c)
          else login host providerUri c
      else (.ok (optToJs c.webId), c)
  else (.ok (optToJs c.webId), c)

/-- `logout()`: captures the end-session endpoint, clears the session, and
redirects to the endpoint with a `returnToUrl` param set to the current
location — only when an endpoint is advertised. -/
def logout (c : ClientAuthOIDC) : Res Unit × ClientAuthOIDC :=
  let logoutEndpoint := providerEndSessionEndpoint c
  let c := clearCurrentCredentials c
  match logoutEndpoint with
  | none => (.ok (), c)
  | some e =>
    match parseURL e with
    | none => (.error "Invalid URL", c)
    | some logoutUrl =>
      let logoutUrl := { logoutUrl with
        query := paramsSet logoutUrl.query "returnToUrl"
          (formEncode (jsString (currentLocation c))) }
      match redirectTo c (serializeURL logoutUrl) with
      | (.error e2, c) => (.error e2, c)
      | (.ok _, c) => (.ok (), c)

deriving instance DecidableEq for Except

/-- The current URI with its fragment cleared — the url shape produced by
`clearAuthResponseFromUrl`. -/
def stripFragment (u : URLModel) : String :=
  serializeURL { u with fragment := "" }

/-! ## Concrete sample data

Windows, stores, clients and hosts used to instantiate the general theorems
below at concrete inputs. -/

/-- A browser window sitting on the application page. -/
def sampleWindow : WindowModel :=
  { locationHref := some "https://app.example/", hasHistory := true }

/-- A freshly constructed instance over an empty store. -/
def baseState : ClientAuthOIDC :=
  { window := some sampleWindow, store := [], currentClient := none,
    providerUri := none, redirectUri := none, webId := none, idToken := none,
    accessToken := none, selectProviderWindowOpen := false, events := [] }

/-- A host whose external operations are never reached. -/
def sampleHost : Host :=
  { fromConfig := fun _ => .error "unused",
    register := fun _ _ => .error "unused",
    encodeCreds := fun _ _ _ => "creds",
    decodeCreds := fun _ => .error "unused" }

/-- A client whose constructed authorization URI lacks a `state` query
parameter. -/
def noStateClient : Client :=
  { provider := some { url := "https://p.example", configuration := none },
    serialized := "cfg",
    createRequest := fun st => .ok ("https://p.example/authorize?nonce=n", st),
    validateResponse := fun _ _ => .error "unused" }

/-- A client whose constructed authorization URI carries `state=abcd`. -/
def stateClient : Client :=
  { provider := some { url := "https://p.example", configuration := none },
    serialized := "cfg2",
    createRequest := fun st => .ok ("https://p.example/authorize?state=abcd", st),
    validateResponse := fun _ _ => .error "unused" }

/-- A client held only in memory (its registration is not in the store). -/
def memClient : Client :=
  { provider := some { url := "https://p.example", configuration := none },
    serialized := "memcfg",
    createRequest := fun st => .ok ("https://p.example/authorize?state=abcd", st),
    validateResponse := fun _ _ => .error "unused" }

/-- The client produced by registration or reconstitution. -/
def freshClient : Client :=
  { provider := some { url := "https://p.example", configuration := none },
    serialized := "freshcfg",
    createRequest := fun st => .ok ("https://p.example/authorize?state=efgh", st),
    validateResponse := fun _ _ => .error "unused" }

/-- A host whose register operation succeeds. -/
def ceHost : Host :=
  { fromConfig := fun _ => .error "unused",
    register := fun _ _ => .ok freshClient,
    encodeCreds := fun _ _ _ => "creds",
    decodeCreds := fun _ => .error "unused" }

/-- A state whose current client is cached in memory only. -/
def memCachedState : ClientAuthOIDC :=
  { baseState with currentClient := some memClient }

/-- A host that reconstitutes a stored client configuration. -/
def loadHost : Host :=
  { fromConfig := fun _ => .ok freshClient,
    register := fun _ _ => .error "unused",
    encodeCreds := fun _ _ _ => "creds",
    decodeCreds := fun _ => .error "unused" }

/-- A state whose store holds a persisted client registration. -/
def storedClientState : ClientAuthOIDC :=
  { baseState with
    store := [(RP_BY_PROVIDER ++ "https://p.example", some "storedcfg")] }

/-- A client whose provider advertises an end-session endpoint. -/
def endSessionClient : Client :=
  { provider := some
      { url := "https://p.example",
        configuration := some { end_session_endpoint := some "https://p.example/logout" } },
    serialized := "escfg",
    createRequest := fun st => .ok ("https://p.example/authorize?state=abcd", st),
    validateResponse := fun _ _ => .error "unused" }

/-- A logged-in state holding the end-session client. -/
def logoutState : ClientAuthOIDC :=
  { baseState with currentClient := some endSessionClient }

/-- A client whose response validation always fails with the
unresolvable-signing-key message (provider rotated its keys). -/
def rotatedKeyClient : Client :=
  { provider := some { url := "https://p.example", configuration := none },
    serialized := "rotcfg",
    createRequest := fun st => .ok ("https://p.example/authorize?state=efgh", st),
    validateResponse := fun _ _ => .error "Cannot resolve signing key for ID Token." }

/-- A host that reconstitutes the rotated-key client from the store. -/
def rotHost : Host :=
  { fromConfig := fun _ => .ok rotatedKeyClient,
    register := fun _ _ => .error "unused",
    encodeCreds := fun _ _ _ => "creds",
    decodeCreds := fun _ => .error "unused" }

/-- A window sitting on an auth-callback URI (fragment with state and
tokens). -/
def callbackWindow : WindowModel :=
  { locationHref := some "https://app.example/#state=abcd&id_token=t&access_token=a",
    hasHistory := true }

/-- A state on the callback page with the rotated-key client persisted. -/
def callbackState : ClientAuthOIDC :=
  { baseState with
    window := some callbackWindow,
    store := [(RP_BY_PROVIDER ++ "https://p.example", some "rotcfg")] }

/-- The parsed form of the callback URI. -/
def callbackURL : URLModel :=
  { base := "https://app.example/", query := "",
    fragment := "state=abcd&id_token=t&access_token=a" }

/-- A state on a callback URI whose state token has no correlation record,
with a previously cached current provider. -/
def staleProviderState : ClientAuthOIDC :=
  { baseState with
    window := some { locationHref := some "https://app.example/#state=abcd",
                     hasHistory := true },
    providerUri := some "https://old.example" }

/-- A state with a cached session webId. -/
def loggedInState : ClientAuthOIDC :=
  { baseState with webId := some "https://alice.example/#me" }

/-- A state with a cached current provider and no session. -/
def providerCachedState : ClientAuthOIDC :=
  { baseState with providerUri := some "https://p.example" }

/-! ## Helper lemmas about the store and the storage keys -/

/-- Reading a key just written returns the written value, coerced to a
string. -/
theorem Store.getItem_set_self (st : Store) (k : String) (v : Option String) :
    (st.setItem k v).getItem k = some (jsString v) := by
  simp [Store.setItem, Store.getItem]

/-- Writing one key leaves every other key unchanged. -/
theorem Store.getItem_set_ne (st : Store) (k k' : String) (v : Option String)
    (h : k ≠ k') : (st.setItem k v).getItem k' = st.getItem k' := by
  simp [Store.setItem, Store.getItem, h]

/-- Reading a key just removed returns nothing. -/
theorem Store.getItem_remove_self (st : Store) (k : String) :
    (st.removeItem k).getItem k = none := by
  simp [Store.removeItem, Store.getItem]

/-- Removing one key leaves every other key unchanged. -/
theorem Store.getItem_remove_ne (st : Store) (k k' : String) (h : k ≠ k') :
    (st.removeItem k).getItem k' = st.getItem k' := by
  simp [Store.removeItem, Store.getItem, h]

/-- Two strings whose first characters differ stay different after appending
anything to the first. -/
theorem append_ne_of_head_ne (a b p : String) (ca cb : Char) (la lb : List Char)
    (ha : a.data = ca :: la) (hb : b.data = cb :: lb) (h : ca ≠ cb) :
    a ++ p ≠ b := by
  intro he
  have h2 : (a ++ p).data = b.data := by rw [he]
  rw [String.data_append, ha, hb] at h2
  simp [List.cons_append] at h2
  exact h h2.1

/-- The by-provider keys never collide with the session-credentials key. -/
theorem byProvider_ne_credentials (p : String) :
    RP_BY_PROVIDER ++ p ≠ CURRENT_CREDENTIALS :=
  append_ne_of_head_ne _ _ p 'o' 's' _ _ rfl rfl (by decide)

/-! ## Claim C1 -/

/-- Claim C1: whenever `sendAuthRequest` redirects to the authorization URI
constructed by the client, the store already holds the correlation record:
when the constructed URI carries a state query parameter `s`, the final
state both shows the redirect event and maps the by-state key for `s` to
the provider URI of the client — and the navigation step itself never
writes the store, so the write completed before the redirect. -/
theorem sendAuthRequest_persists_before_redirect
    (client : Client) (c : ClientAuthOIDC) (prov : ProviderModel) (w : WindowModel)
    (authUri s : String) (store' : Store)
    (hprov : client.provider = some prov)
    (hwin : c.window = some w)
    (hreq : client.createRequest c.store = .ok (authUri, store'))
    (hstate : extractState (some authUri) QUERY = .ok (some s))
    (hs : s ≠ "") :
    (∃ c', sendAuthRequest client c = (.ok (.boolV false), c') ∧
       c'.store.getItem (PROVIDER_BY_STATE ++ s) = some prov.url ∧
       c'.events = .redirect authUri :: c.events) ∧
    (∀ (cm : ClientAuthOIDC) (u : String), ((redirectTo cm u).2).store = cm.store) := by
  constructor
  · refine ⟨{ c with
        store := store'.setItem (PROVIDER_BY_STATE ++ s) (some prov.url),
        window := some { w with locationHref := some authUri },
        events := .redirect authUri :: c.events }, ?_, ?_, ?_⟩
    · simp [sendAuthRequest, hprov, hreq, hstate, saveProviderByState, hs,
        redirectTo, hwin]
    · simp [Store.getItem_set_self, jsString]
    · rfl
  · intro cm u
    match hw : cm.window with
    | none => simp [redirectTo, hw]
    | some w' => simp [redirectTo, hw]

/-- Witness for claim C1 at a concrete client and state. -/
theorem sendAuthRequest_persists_witness :
    (∃ c', sendAuthRequest stateClient baseState = (.ok (.boolV false), c') ∧
       c'.store.getItem (PROVIDER_BY_STATE ++ "abcd") = some "https://p.example" ∧
       c'.events = .redirect "https://p.example/authorize?state=abcd" :: baseState.events) ∧
    (∀ (cm : ClientAuthOIDC) (u : String), ((redirectTo cm u).2).store = cm.store) :=
  sendAuthRequest_persists_before_redirect stateClient baseState
    { url := "https://p.example", configuration := none } sampleWindow
    "https://p.example/authorize?state=abcd" "abcd" baseState.store
    rfl rfl rfl (by decide) (by decide)

/-! ## Claim C2 -/

/-- Claim C2: when the response validation of the client rejects with the
message "Cannot resolve signing key for ID Token.", `initUserFromResponse`
resolves `null` and the fragment has been stripped from the visible URI;
a rejection with any other message propagates to the caller (the fragment
still stripped); and under hypotheses that drive `login` into the
validation branch, `login` also resolves `null` with the fragment
stripped. -/
theorem initUserFromResponse_recovers_key_rotation
    (host : Host) (client : Client) (c : ClientAuthOIDC) (w : WindowModel)
    (loc msg : String) (u : URLModel)
    (hwin : c.window = some w) (hloc : w.locationHref = some loc)
    (hhist : w.hasHistory = true) (hparse : parseURL loc = some u)
    (hval : ∀ st : Store, client.validateResponse (some loc) st = .error msg) :
    (msg = "Cannot resolve signing key for ID Token." →
      initUserFromResponse host client c =
        (.ok .nullV,
          { c with
            window := some { w with locationHref := some (stripFragment u) },
            events := .debugLog :: .replaceUrl (some (stripFragment u)) :: c.events })) ∧
    (msg ≠ "Cannot resolve signing key for ID Token." →
      initUserFromResponse host client c =
        (.error msg,
          { c with
            window := some { w with locationHref := some (stripFragment u) },
            events := .replaceUrl (some (stripFragment u)) :: c.events })) ∧
    (∀ p cfg st : String,
      falsyStr c.webId = true → p ≠ "" →
      c.store.getItem (RP_BY_PROVIDER ++ p) = some cfg → cfg ≠ "" →
      host.fromConfig cfg = .ok client →
      extractState (some loc) HASH = .ok (some st) → st ≠ "" →
      msg = "Cannot resolve signing key for ID Token." →
      ∃ c', login host (some p) c = (.ok .nullV, c') ∧
        (∃ w', c'.window = some w' ∧
          w'.locationHref = some (stripFragment u))) := by
  have hlocne : loc ≠ "" := by
    rintro rfl
    rw [(by decide : parseURL "" = none)] at hparse
    exact Option.noConfusion hparse
  have hstrip : ∀ d : ClientAuthOIDC, d.window = some w →
      clearAuthResponseFromUrl d = (.ok (),
        { d with
          window := some { w with locationHref := some (stripFragment u) },
          events := .replaceUrl (some (stripFragment u)) :: d.events }) := by
    intro d hd
    simp [clearAuthResponseFromUrl, currentLocationNoHash, currentLocation, hd,
      hloc, hlocne, hparse, replaceCurrentUrl, hhist, stripFragment]
  have hmain1 : msg = "Cannot resolve signing key for ID Token." →
      ∀ d : ClientAuthOIDC, d.window = some w →
      initUserFromResponse host client d =
        (.ok .nullV,
          { d with
            window := some { w with locationHref := some (stripFragment u) },
            events := .debugLog :: .replaceUrl (some (stripFragment u)) :: d.events }) := by
    intro hm d hd
    simp [initUserFromResponse, currentLocation, hd, hloc, hval,
      initUserFromResponseCatch, hstrip d hd, hm]
  have hmain2 : msg ≠ "Cannot resolve signing key for ID Token." →
      ∀ d : ClientAuthOIDC, d.window = some w →
      initUserFromResponse host client d =
        (.error msg,
          { d with
            window := some { w with locationHref := some (stripFragment u) },
            events := .replaceUrl (some (stripFragment u)) :: d.events }) := by
    intro hm d hd
    simp [initUserFromResponse, currentLocation, hd, hloc, hval,
      initUserFromResponseCatch, hstrip d hd, hm]
  refine ⟨fun hm => hmain1 hm c hwin, fun hm => hmain2 hm c hwin, ?_⟩
  intro p cfg st hweb hp hcfg hcfgne hfrom hfrag hst hm
  have hne := byProvider_ne_credentials p
  have hcfg1 : (c.store.removeItem CURRENT_CREDENTIALS).getItem
      (RP_BY_PROVIDER ++ p) = some cfg := by
    rw [Store.getItem_remove_ne _ _ _ hne.symm]
    exact hcfg
  refine ⟨{ clearCurrentCredentials c with
      currentClient := some client,
      window := some { w with locationHref := some (stripFragment u) },
      events := .debugLog :: .replaceUrl (some (stripFragment u)) :: c.events }, ?_,
    { w with locationHref := some (stripFragment u) }, rfl, rfl⟩
  have hp' : falsyStr (some p) = false := by simp [falsyStr, hp]
  have hst' : falsyStr (some st) = false := by simp [falsyStr, hst]
  simp [login, hweb, selectProvider, hp', loadOrRegisterClient,
    loadClient, loadClientFromStore, clearCurrentCredentials, hcfg1, hcfgne,
    hfrom, validateOrSendAuthRequest, currentUriHasAuthResponse,
    currentLocation, hwin, hloc, hfrag, hst', hp, hst, hmain1 hm]

/-- Witness for claim C2 at a concrete rotated-key client, both for
`initUserFromResponse` directly and through `login`. -/
theorem initUserFromResponse_recovers_witness :
    (initUserFromResponse rotHost rotatedKeyClient callbackState =
      (.ok .nullV,
        { callbackState with
          window := some { callbackWindow with
            locationHref := some (stripFragment callbackURL) },
          events := .debugLog :: .replaceUrl (some (stripFragment callbackURL))
            :: callbackState.events })) ∧
    (∃ c', login rotHost (some "https://p.example") callbackState = (.ok .nullV, c') ∧
      (∃ w', c'.window = some w' ∧
        w'.locationHref = some (stripFragment callbackURL))) :=
  have h := initUserFromResponse_recovers_key_rotation rotHost rotatedKeyClient
    callbackState callbackWindow
    "https://app.example/#state=abcd&id_token=t&access_token=a"
    "Cannot resolve signing key for ID Token." callbackURL
    rfl rfl rfl (by decide) (fun _ => rfl)
  ⟨h.1 rfl,
    h.2.2 "https://p.example" "rotcfg" "abcd" rfl (by decide) (by decide)
      (by decide) rfl (by decide) (by decide) rfl⟩

/-! ## Claim C3 -/

/-- Claim C3: with a cached session webId, `login` resolves with that webId
and returns the state completely unchanged — so no provider selection,
client loading or auth processing happens, the credentials are untouched,
and a second call returns the same webId again. -/
theorem login_short_circuits_on_cached_webid
    (host : Host) (providerUri : Option String) (c : ClientAuthOIDC) (w : String)
    (h : c.webId = some w) (hw : w ≠ "") :
    login host providerUri c = (.ok (.str w), c) ∧
    login host providerUri ((login host providerUri c).2) = (.ok (.str w), c) := by
  have h1 : login host providerUri c = (.ok (.str w), c) := by
    simp [login, falsyStr, h, hw, optToJs]
  refine ⟨h1, ?_⟩
  rw [h1]
  exact h1

/-- Witness for claim C3 at a concrete logged-in state. -/
theorem login_short_circuits_witness :
    login sampleHost (some "https://p.example") loggedInState =
      (.ok (.str "https://alice.example/#me"), loggedInState) ∧
    login sampleHost (some "https://p.example")
        ((login sampleHost (some "https://p.example") loggedInState).2) =
      (.ok (.str "https://alice.example/#me"), loggedInState) :=
  login_short_circuits_on_cached_webid sampleHost (some "https://p.example")
    loggedInState "https://alice.example/#me" rfl (by decide)

/-! ## Claim C4 -/

/-- Counterexample to claim C4 as stated: a client for the provider is
cached in memory as the current client, but no registration record is in
the store; `loadOrRegisterClient` nulls the in-memory cache before the
lookup, so it does invoke the register operation of the RP capability. -/
theorem loadOrRegisterClient_memory_only_registers :
    memCachedState.currentClient = some memClient ∧
    memClient.provider = some { url := "https://p.example", configuration := none } ∧
    memCachedState.store.getItem (RP_BY_PROVIDER ++ "https://p.example") = none ∧
    Event.registerCall "https://p.example" ∈
      (loadOrRegisterClient ceHost memCachedState (some "https://p.example")).2.events := by
  refine ⟨rfl, rfl, by decide, ?_⟩
  decide

/-- Claim C4, amended: when a client for the provider is persisted in the
store under the provider key, `loadOrRegisterClient` resolves with the
reconstituted client, caches it, and never invokes the register operation
(the event trace is unchanged); the in-memory current client is cleared
first, so a client cached only in memory does not prevent registration. -/
theorem loadOrRegisterClient_store_hit_no_register
    (host : Host) (c : ClientAuthOIDC) (p cfg : String) (client : Client)
    (hp : p ≠ "")
    (hcfg : c.store.getItem (RP_BY_PROVIDER ++ p) = some cfg)
    (hcfgne : cfg ≠ "")
    (hfrom : host.fromConfig cfg = .ok client) :
    loadOrRegisterClient host c (some p) =
      (.ok client, { c with currentClient := some client }) ∧
    ({ c with currentClient := some client } : ClientAuthOIDC).events = c.events := by
  refine ⟨?_, rfl⟩
  simp [loadOrRegisterClient, loadClient, hp, loadClientFromStore, hcfg, hcfgne, hfrom]

/-- Witness for the amended claim C4 at a concrete persisted client. -/
theorem loadOrRegisterClient_store_hit_witness :
    loadOrRegisterClient loadHost storedClientState (some "https://p.example") =
      (.ok freshClient, { storedClientState with currentClient := some freshClient }) ∧
    ({ storedClientState with currentClient := some freshClient } :
        ClientAuthOIDC).events = storedClientState.events :=
  loadOrRegisterClient_store_hit_no_register loadHost storedClientState
    "https://p.example" "storedcfg" freshClient (by decide) (by decide) (by decide) rfl

/-! ## Claim C5 -/

/-- Counterexample to claim C5 as stated: on a malformed URI the `new URL`
constructor throws and `extractState` has no handler, so it fails instead
of returning absent. -/
theorem extractState_malformed_throws :
    extractState (some "not a url") HASH = .error "Invalid URL" := by decide

/-- Claim C5, amended: `extractState` returns absent when the URI is absent
or empty, and when a parseable URI carries no state parameter in the
requested location (for both the query and the hash mode); it is a pure
function, so two calls on the same arguments agree; but on a non-empty
unparseable URI it throws instead of returning absent. -/
theorem extractState_total_on_parseable :
    (∀ t : String, extractState none t = .ok none) ∧
    (∀ t : String, extractState (some "") t = .ok none) ∧
    (∀ s u, parseURL s = some u → paramsGet u.query "state" = none →
       extractState (some s) QUERY = .ok none) ∧
    (∀ s u, parseURL s = some u →
       paramsGet (strTail (if u.hash = "" then "#" else u.hash)) "state" = none →
       extractState (some s) HASH = .ok none) ∧
    (∀ s, parseURL s = none → s ≠ "" →
       ∀ t, extractState (some s) t = .error "Invalid URL") ∧
    (∀ uri t, extractState uri t = extractState uri t) := by
  refine ⟨fun t => rfl, fun t => rfl, ?_, ?_, ?_, fun uri t => rfl⟩
  · intro s u hu hget
    have hs : s ≠ "" := by
      rintro rfl
      rw [(by decide : parseURL "" = none)] at hu
      exact Option.noConfusion hu
    simp [extractState, falsyStr, hs, hu, hget, QUERY, HASH]
  · intro s u hu hget
    have hs : s ≠ "" := by
      rintro rfl
      rw [(by decide : parseURL "" = none)] at hu
      exact Option.noConfusion hu
    simp [extractState, falsyStr, hs, hu, hget, QUERY, HASH]
  · intro s hu hs t
    simp [extractState, falsyStr, hs, hu]

/-- Witness for the amended claim C5 at a concrete URI without a state
parameter. -/
theorem extractState_total_witness :
    parseURL "https://example.com?param1=value1" =
      some { base := "https://example.com", query := "param1=value1", fragment := "" } ∧
    paramsGet "param1=value1" "state" = none ∧
    extractState (some "https://example.com?param1=value1") QUERY = .ok none :=
  ⟨by decide, by decide,
    extractState_total_on_parseable.2.2.1 "https://example.com?param1=value1"
      { base := "https://example.com", query := "param1=value1", fragment := "" }
      (by decide) (by decide)⟩

/-! ## Claim C6 -/

/-- Counterexample to claim C6 as stated: the empty string is a non-absent
state, yet `saveProviderByState` rejects it (the falsiness check in the
source treats it like an absent one), so the round-trip fails there. -/
theorem saveProviderByState_empty_state_fails :
    saveProviderByState baseState (some "") (some "https://p.example") =
      (.error "Cannot save providerUri - state not provided", baseState) := rfl

/-- Claim C6, amended: for every state that is neither absent nor empty and
every provider URI, `saveProviderByState` then `loadProviderByState`
round-trips exactly; for an absent or empty state, `saveProviderByState`
fails with the invalid-argument error and leaves the state (and hence the
store) unchanged. -/
theorem saveProviderByState_roundtrip (c : ClientAuthOIDC) (s p : String)
    (hs : s ≠ "") :
    (∃ c', saveProviderByState c (some s) (some p) = (.ok (), c') ∧
       loadProviderByState c' s = some p) ∧
    (∀ st : Option String, falsyStr st = true →
       saveProviderByState c st (some p) =
         (.error "Cannot save providerUri - state not provided", c)) := by
  constructor
  · refine ⟨{ c with store := c.store.setItem (PROVIDER_BY_STATE ++ s) (some p) },
      ?_, ?_⟩
    · simp [saveProviderByState, hs]
    · simp [loadProviderByState, Store.getItem_set_self, jsString]
  · intro st hst
    match st with
    | none => rfl
    | some s' =>
      simp [falsyStr] at hst
      simp [saveProviderByState, hst]

/-- Witness for the amended claim C6 at a concrete state token. -/
theorem saveProviderByState_roundtrip_witness :
    (∃ c', saveProviderByState baseState (some "abcd") (some "https://p.example") =
       (.ok (), c') ∧ loadProviderByState c' "abcd" = some "https://p.example") ∧
    (∀ st : Option String, falsyStr st = true →
       saveProviderByState baseState st (some "https://p.example") =
         (.error "Cannot save providerUri - state not provided", baseState)) :=
  saveProviderByState_roundtrip baseState "abcd" "https://p.example" (by decide)

/-! ## Claim C7 -/

/-- Claim C7: `logout` always clears the session credentials from memory
and from the store; with no current client the end-session endpoint is
absent, and with an absent endpoint no redirect is attempted (the event
trace is unchanged); with an advertised endpoint it redirects to the
endpoint with a `returnToUrl` query parameter set to the url-encoded
current location. -/
theorem logout_clears_and_redirects (c : ClientAuthOIDC) (w : WindowModel) :
    ((logout c).2.webId = none ∧ (logout c).2.idToken = none ∧
      (logout c).2.accessToken = none ∧
      (logout c).2.store.getItem CURRENT_CREDENTIALS = none) ∧
    (c.currentClient = none → providerEndSessionEndpoint c = none) ∧
    (providerEndSessionEndpoint c = none →
      logout c = (.ok (), clearCurrentCredentials c) ∧
      (clearCurrentCredentials c).events = c.events) ∧
    (∀ e u, providerEndSessionEndpoint c = some e → parseURL e = some u →
      c.window = some w →
      ∃ c', logout c = (.ok (), c') ∧
        c'.events = .redirect (serializeURL { u with
          query := paramsSet u.query "returnToUrl"
            (formEncode (jsString (currentLocation c))) }) :: c.events) := by
  have hcl : currentLocation (clearCurrentCredentials c) = currentLocation c := rfl
  refine ⟨?_, ?_, ?_, ?_⟩
  · rcases hE : providerEndSessionEndpoint c with _ | e
    · simp [logout, hE, clearCurrentCredentials, Store.getItem_remove_self]
    · rcases hP : parseURL e with _ | u
      · simp [logout, hE, hP, clearCurrentCredentials, Store.getItem_remove_self]
      · rcases hW : c.window with _ | w'
        · simp [logout, hE, hP, redirectTo, hW, clearCurrentCredentials,
            Store.getItem_remove_self]
        · simp [logout, hE, hP, redirectTo, hW, clearCurrentCredentials,
            Store.getItem_remove_self]
  · intro h
    simp [providerEndSessionEndpoint, h]
  · intro hE
    exact ⟨by simp [logout, hE], rfl⟩
  · intro e u hE hP hwin
    refine ⟨{ clearCurrentCredentials c with
        window := some { w with locationHref := some (serializeURL { u with
          query := paramsSet u.query "returnToUrl"
            (formEncode (jsString (currentLocation c))) }) },
        events := .redirect (serializeURL { u with
          query := paramsSet u.query "returnToUrl"
            (formEncode (jsString (currentLocation c))) }) :: c.events }, ?_, rfl⟩
    simp [logout, hE, hP, redirectTo, hcl, clearCurrentCredentials, hwin,
      currentLocation]

/-- Witness for claim C7 at a concrete client advertising an end-session
endpoint. -/
theorem logout_clears_witness :
    ∃ c', logout logoutState = (.ok (), c') ∧
      c'.events = .redirect (serializeURL {
        (⟨"https://p.example/logout", "", ""⟩ : URLModel) with
        query := paramsSet "" "returnToUrl"
          (formEncode (jsString (currentLocation logoutState))) }) :: logoutState.events :=
  (logout_clears_and_redirects logoutState sampleWindow).2.2.2
    "https://p.example/logout" ⟨"https://p.example/logout", "", ""⟩
    (by decide) (by decide) rfl

/-! ## Claim C8 -/

/-- Claim C8: `currentUser` resolves with the cached webId when one is set;
otherwise it hydrates the session from the store and resolves with the
stored webId when present; otherwise, when the provider resolution yields a
provider, it delegates to `login` with it; otherwise it resolves `null` in
the state left by the resolution steps. -/
theorem currentUser_resolution_order (host : Host) (c c₁ : ClientAuthOIDC) :
    (falsyStr c.webId = false →
      currentUser host c = (.ok (optToJs c.webId), c)) ∧
    (falsyStr c.webId = true →
      loadCurrentCredentials host c = (.ok (), c₁) →
      ((falsyStr c₁.webId = false →
        currentUser host c = (.ok (optToJs c₁.webId), c₁)) ∧
      (∀ r (c₂ : ClientAuthOIDC), falsyStr c₁.webId = true →
        currentProvider c₁ = (.ok r, c₂) →
        ((falsyStr r = false → currentUser host c = login host r c₂) ∧
         (falsyStr r = true → currentUser host c = (.ok .nullV, c₂)))))) := by
  constructor
  · intro h
    simp [currentUser, h]
  · intro h hload
    constructor
    · intro h1
      simp [currentUser, h, hload, h1]
    · intro r c₂ h1 hcp
      constructor
      · intro hr
        simp [currentUser, h, hload, h1, hcp, hr]
      · intro hr
        simp [currentUser, h, hload, h1, hcp, hr]

/-- Witness for claim C8: with no session anywhere but a cached provider,
`currentUser` delegates to `login` with that provider. -/
theorem currentUser_resolution_witness :
    currentUser sampleHost providerCachedState =
      login sampleHost (some "https://p.example") providerCachedState :=
  (((currentUser_resolution_order sampleHost providerCachedState
        providerCachedState).2 rfl rfl).2 (some "https://p.example")
      providerCachedState rfl rfl).1 rfl

/-! ## Claim C9 -/

/-- Claim C9: when the constructed authorization URI carries no state query
parameter, `sendAuthRequest` rejects (the invalid-auth-request failure of
the spec taxonomy, raised as the missing-state error of
`saveProviderByState`), and no redirect is performed — the event trace and
the window are unchanged. -/
theorem sendAuthRequest_missing_state_rejects
    (client : Client) (c : ClientAuthOIDC) (prov : ProviderModel)
    (authUri : String) (store' : Store)
    (hprov : client.provider = some prov)
    (hreq : client.createRequest c.store = .ok (authUri, store'))
    (hstate : extractState (some authUri) QUERY = .ok none) :
    sendAuthRequest client c =
      (.error "Cannot save providerUri - state not provided",
        { c with store := store' }) ∧
    ({ c with store := store' } : ClientAuthOIDC).events = c.events ∧
    ({ c with store := store' } : ClientAuthOIDC).window = c.window := by
  refine ⟨?_, rfl, rfl⟩
  simp [sendAuthRequest, hprov, hreq, hstate, saveProviderByState]

/-- Witness for claim C9 at a concrete client producing a state-less
authorization URI. -/
theorem sendAuthRequest_missing_state_witness :
    noStateClient.provider = some { url := "https://p.example", configuration := none } ∧
    noStateClient.createRequest baseState.store =
      .ok ("https://p.example/authorize?nonce=n", baseState.store) ∧
    extractState (some "https://p.example/authorize?nonce=n") QUERY = .ok none ∧
    sendAuthRequest noStateClient baseState =
      (.error "Cannot save providerUri - state not provided", baseState) ∧
    baseState.events = baseState.events :=
  ⟨rfl, rfl, by decide,
    by
      have h := sendAuthRequest_missing_state_rejects noStateClient baseState
        { url := "https://p.example", configuration := none }
        "https://p.example/authorize?nonce=n" baseState.store rfl rfl (by decide)
      exact h.1,
    rfl⟩

/-! ## Claim C10 -/

/-- Counterexample to claim C10 as stated: at a state with a stale cached
provider and an uncorrelated state token, `providerFromCurrentUri` does
return absent and nulls the in-memory provider field, but the stored
current-provider key is not set to the absent value — the store coerces the
nullish write to the truthy string `"null"`, so the key is present
afterwards. -/
theorem providerFromCurrentUri_stores_null_string :
    (providerFromCurrentUri staleProviderState).1 = .ok none ∧
    ((providerFromCurrentUri staleProviderState).2).providerUri = none ∧
    ((providerFromCurrentUri staleProviderState).2).store.getItem CURRENT_PROVIDER =
      some "null" ∧
    ((providerFromCurrentUri staleProviderState).2).store.getItem CURRENT_PROVIDER ≠
      none := by
  refine ⟨by decide, by decide, by decide, by decide⟩

/-- Claim C10, amended: when the current URI fragment carries a state
parameter for which no correlation record exists, `providerFromCurrentUri`
returns absent but still promotes unconditionally: it overwrites the
in-memory provider field with the absent value and overwrites the stored
current-provider key with the string coercion of that absent value (the
truthy string `"null"`), discarding whatever current provider was cached
before — the promotion is unconditional once a state parameter is present,
not conditional on the correlation record being found. -/
theorem providerFromCurrentUri_promotes_nullish
    (c : ClientAuthOIDC) (w : WindowModel) (loc s : String)
    (hwin : c.window = some w) (hloc : w.locationHref = some loc)
    (hstate : extractState (some loc) HASH = .ok (some s)) (hs : s ≠ "")
    (hmiss : c.store.getItem (PROVIDER_BY_STATE ++ s) = none) :
    providerFromCurrentUri c = (.ok none, saveCurrentProvider c none) ∧
    (saveCurrentProvider c none).providerUri = none ∧
    (saveCurrentProvider c none).store.getItem CURRENT_PROVIDER = some "null" := by
  refine ⟨?_, rfl, by simp [saveCurrentProvider, Store.getItem_set_self, jsString]⟩
  simp [providerFromCurrentUri, currentLocation, hwin, hloc, hstate, hs,
    loadProviderByState, hmiss]

/-- Witness for the amended claim C10 at a concrete state with a stale
cached provider. -/
theorem providerFromCurrentUri_promotes_witness :
    providerFromCurrentUri staleProviderState =
      (.ok none, saveCurrentProvider staleProviderState none) ∧
    (saveCurrentProvider staleProviderState none).providerUri = none ∧
    (saveCurrentProvider staleProviderState none).store.getItem CURRENT_PROVIDER =
      some "null" :=
  providerFromCurrentUri_promotes_nullish staleProviderState
    { locationHref := some "https://app.example/#state=abcd", hasHistory := true }
    "https://app.example/#state=abcd" "abcd" rfl rfl (by decide) (by decide) rfl

end SolidOIDC
